import Mathlib

/-!
Shallow embedding of `src/energy.rs`: energy units (Joule, Calorie, BTU as the
base unit), the `Fuel` capability, the energy providers (NuclearReactor,
InternalCombustion, OmniGenerator, GreenEngine, BritishEngine) and the fuel
combinators (Mixed, CustomMixed).

Modelling conventions:
- `u32` values are `Nat` magnitudes; where the Rust code performs a `u32`
  multiplication or addition that can overflow, the embedding applies
  `% U32MOD` explicitly (release-mode wrapping semantics).
- `u8::saturating_sub` is `Nat` truncated subtraction, which saturates at 0
  in the same way.
- The trait default method `provide_energy_with_efficiency` computes
  `(energy_in_btu as f64 * efficiency as f64 / 100.0) as u32`. On its input
  domain (`energy_in_btu < 2^32`, clamped `efficiency ≤ 100`) the product is
  below `2^39`, hence exactly representable in `f64`; after the IEEE division
  by 100 the distance from the true rational to the nearest integer above is
  at least `1/100`, which exceeds the half-ulp at magnitudes below `2^32`,
  so rounding never crosses an integer boundary and the truncating cast
  yields exactly `energy_in_btu * efficiency / 100` in floor arithmetic.
  The embedding therefore uses `Nat` floor division there.
- A `Fuel` implementor is a value of `FuelTy`: its associated `Output` unit
  and the magnitude returned by `energy_density()` in that unit.
- Rust trait objects are not needed: each provider's `provide_energy` is a
  named function; the shared default methods are parameterised by the
  provider's primitive (`primitive : FuelContainer → Nat`, the native-unit
  magnitude the primitive returns for a container).
-/

namespace Energy

/-- `2^32`, the modulus of Rust `u32` arithmetic. -/
def U32MOD : Nat := 4294967296

/-- The three energy units of the module: `Joule`, `Calorie`, and the base
unit `BTU` (`pub type BTU = u32`). -/
inductive EUnit
  | joule
  | calorie
  | btu
deriving DecidableEq

/-- `impl From<Joule> for BTU`: `j.0 / 1055`. -/
def btuFromJoule (j : Nat) : Nat := j / 1055

/-- `impl From<BTU> for Joule`: `Self(b * 1055)` (u32 multiplication). -/
def jouleFromBtu (b : Nat) : Nat := b * 1055 % U32MOD

/-- `impl From<Calorie> for BTU`: `c.0 / 251`. -/
def btuFromCalorie (c : Nat) : Nat := c / 251

/-- `impl From<BTU> for Calorie`: `Calorie(b * 251)` (u32 multiplication). -/
def calorieFromBtu (b : Nat) : Nat := b * 251 % U32MOD

/-- The `Into<BTU>` direction of a unit's magnitude. -/
def toBTU : EUnit → Nat → Nat
  | .joule, q => btuFromJoule q
  | .calorie, q => btuFromCalorie q
  | .btu, q => q

/-- The `From<BTU>` direction of a unit's magnitude. -/
def fromBTU : EUnit → Nat → Nat
  | .joule, b => jouleFromBtu b
  | .calorie, b => calorieFromBtu b
  | .btu, b => b

/-- Base-units-per-native-unit conversion factor of each unit. -/
def convFactor : EUnit → Nat
  | .joule => 1055
  | .calorie => 251
  | .btu => 1

/-- A `Fuel` implementor: its associated `Output` unit and the magnitude of
`energy_density()` in that unit. -/
structure FuelTy where
  unit : EUnit
  density : Nat
deriving DecidableEq

/-- `Diesel`: `Output = Joule`, `energy_density() = Joule::from(100)`. -/
def Diesel : FuelTy := ⟨.joule, jouleFromBtu 100⟩

/-- `LithiumBattery`: `Output = Calorie`, `energy_density() = Calorie::from(200)`. -/
def LithiumBattery : FuelTy := ⟨.calorie, calorieFromBtu 200⟩

/-- `Uranium`: `Output = Joule`, `energy_density() = Joule::from(1000)`. -/
def Uranium : FuelTy := ⟨.joule, jouleFromBtu 1000⟩

/-- `trait IsRenewable {}` has exactly one impl in the source:
`impl IsRenewable for LithiumBattery {}`. -/
def IsRenewable (F : FuelTy) : Prop := F = LithiumBattery

instance (F : FuelTy) : Decidable (IsRenewable F) :=
  inferInstanceAs (Decidable (F = LithiumBattery))

/-- `FuelContainer<F>`: the amount of fuel (the `PhantomData` marker carries
no data; the fuel type is passed alongside the container in this embedding). -/
structure FuelContainer where
  amount : Nat
deriving DecidableEq

/-- `FuelContainer::new(amount)`. -/
def FuelContainer.new (amount : Nat) : FuelContainer := ⟨amount⟩

/-- The trait default method `ProvideEnergy::provide_energy_with_efficiency`,
parameterised by the provider's primitive `provide_energy`. The `f64`
intermediate is exact floor division on this domain (see the module header). -/
def provide_energy_with_efficiency (primitive : FuelContainer → Nat)
    (F : FuelTy) (f : FuelContainer) (e : Nat) : Nat :=
  let efficiency := if e > 100 then 100 else e
  let energy := primitive f
  let energy_in_btu := toBTU F.unit energy
  let adjusted_energy := energy_in_btu * efficiency / 100
  fromBTU F.unit adjusted_energy

/-- The trait default method `ProvideEnergy::provide_energy_ideal`:
`provide_energy_with_efficiency(f, 100)`. -/
def provide_energy_ideal (primitive : FuelContainer → Nat)
    (F : FuelTy) (f : FuelContainer) : Nat :=
  provide_energy_with_efficiency primitive F f 100

/-- `NuclearReactor::provide_energy` (the struct has no fields, so the
embedding is a pure function of the fuel type and container: repeated calls
trivially return the same value and touch no state). -/
def NuclearReactor.provide_energy (F : FuelTy) (f : FuelContainer) : Nat :=
  let efficiency := 99
  let energy_density := f.amount * toBTU F.unit F.density % U32MOD
  let adjusted_energy := energy_density * efficiency % U32MOD / 100
  fromBTU F.unit adjusted_energy

/-- `InternalCombustion<const DECAY: u32>`: the `DECAY` const parameter, the
immutable `efficiency: u8` field and the `count: RefCell<u32>` cell. -/
structure InternalCombustion where
  decay : Nat
  efficiency : Nat
  count : Nat
deriving DecidableEq

/-- `InternalCombustion::new(efficiency)`: stores `efficiency.min(100)`,
counter starts at 0. -/
def InternalCombustion.new (decay efficiency : Nat) : InternalCombustion :=
  ⟨decay, min efficiency 100, 0⟩

/-- `InternalCombustion::update_count(new_count)`: `*count = new_count + 1`
(u32 addition). -/
def InternalCombustion.update_count (ic : InternalCombustion)
    (new_count : Nat) : InternalCombustion :=
  { ic with count := (new_count + 1) % U32MOD }

/-- `InternalCombustion::provide_energy`. The `RefCell` mutation is made
explicit: the call returns the native-unit energy together with the updated
provider state. Note that the `efficiency` *field* is never written: the
decrement `self.efficiency.saturating_sub(1)` only binds a local variable. -/
def InternalCombustion.provide_energy (ic : InternalCombustion)
    (F : FuelTy) (f : FuelContainer) : Nat × InternalCombustion :=
  let pair :=
    if ic.count = ic.decay then (0, ic.efficiency - 1)
    else (ic.count, ic.efficiency)
  let new_count := pair.1
  let efficiency := pair.2
  let ic2 := ic.update_count new_count
  let energy_in_btu := f.amount * toBTU F.unit F.density % U32MOD
  let adjusted_energy := energy_in_btu * efficiency % U32MOD / 100
  (fromBTU F.unit adjusted_energy, ic2)

/-- Iterate `InternalCombustion.provide_energy` over a list of containers,
returning each call's result converted to BTU (mirroring the tests' hidden
`to_btu()` helper), threading the provider state through the calls. -/
def InternalCombustion.run_to_btu (ic : InternalCombustion) (F : FuelTy) :
    List FuelContainer → List Nat
  | [] => []
  | f :: rest =>
    let r := ic.provide_energy F f
    toBTU F.unit r.1 :: r.2.run_to_btu F rest

/-- `OmniGenerator::<EFFICIENCY>::provide_energy`. The `f64` intermediate is
exact floor division on this domain (see the module header). -/
def OmniGenerator.provide_energy (EFFICIENCY : Nat)
    (F : FuelTy) (f : FuelContainer) : Nat :=
  let efficiency := if EFFICIENCY > 100 then 100 else EFFICIENCY
  let energy_density := toBTU F.unit F.density
  let energy_in_btu := f.amount * energy_density % U32MOD
  let adjusted_energy := energy_in_btu * efficiency / 100
  fromBTU F.unit adjusted_energy

/-- `Mixed<F1, F2>`: `Output = BTU`,
`energy_density() = (density_f1 + density_f2) / 2` after converting both
densities to BTU (u32 addition). -/
def Mixed (F1 F2 : FuelTy) : FuelTy :=
  let density_f1 := toBTU F1.unit F1.density
  let density_f2 := toBTU F2.unit F2.density
  ⟨.btu, (density_f1 + density_f2) % U32MOD / 2⟩

/-- `CustomMixed<const C: u8, F1, F2>`: `Output = BTU`, each weighted term is
floor-divided by 100 separately before summing. `100 - C` is the u8
subtraction, which for the admissible weights `C ≤ 100` (larger `C` panics in
debug builds) agrees with `Nat` truncated subtraction. -/
def CustomMixed (C : Nat) (F1 F2 : FuelTy) : FuelTy :=
  let density_f1 := toBTU F1.unit F1.density
  let density_f2 := toBTU F2.unit F2.density
  let weighted_density_f1 := density_f1 * C % U32MOD / 100
  let weighted_density_f2 := density_f2 * (100 - C) % U32MOD / 100
  ⟨.btu, (weighted_density_f1 + weighted_density_f2) % U32MOD⟩

/-- `GreenEngine<F>::provide_energy` as implemented: the impl block carries
only the `F: Fuel` bound — no `IsRenewable` bound — so it is defined for
every fuel type. -/
def GreenEngine.provide_energy (F : FuelTy) (f : FuelContainer) : Nat :=
  let efficiency := f.amount * toBTU F.unit F.density % U32MOD
  fromBTU F.unit efficiency

/-- `BritishEngine<F>::provide_energy` as implemented: the impl block carries
only the `F: Fuel` bound — no `Output = BTU` constraint — so it is defined
for every fuel type. -/
def BritishEngine.provide_energy (F : FuelTy) (f : FuelContainer) : Nat :=
  let efficiency := f.amount * toBTU F.unit F.density % U32MOD
  fromBTU F.unit efficiency

/-- The weighted-blend density formula exactly as the spec words it:
density(F1) in base units × C/100 plus density(F2) in base units ×
(100−C)/100, each term floor-divided separately before summing. -/
def specWeightedDensity (C : Nat) (F1 F2 : FuelTy) : Nat :=
  toBTU F1.unit F1.density * C / 100 + toBTU F2.unit F2.density * (100 - C) / 100

/-- C1: the claim states the decay is persistent — efficiency never increases
over a sequence of `provide_energy` calls. Evaluating the code at the failing
input: `InternalCombustion::<3>::new(120)` fed five Diesel containers of
quantity 10 yields 1000, 1000, 1000, 990, 1000 in BTU — the fifth call's
output rises back above the fourth's, because the `efficiency` field is never
mutated and the decrement only affects the call at which the counter equals
`DECAY`. The type's own doc comment ("per every `DECAY` times `provide_energy`
is called ... the efficiency should reduce by one") agrees with the claim, so
the code, not the claim, is at fault. -/
theorem ic_efficiency_rebounds_after_decay_call :
    InternalCombustion.run_to_btu (InternalCombustion.new 3 120) Diesel
        [⟨10⟩, ⟨10⟩, ⟨10⟩, ⟨10⟩, ⟨10⟩] = [1000, 1000, 1000, 990, 1000] ∧
    ¬ (990:Nat) ≥ 1000 := by decide

/-- C2: the claim states `GreenEngine` is usable only with `IsRenewable` fuels
and `BritishEngine` only with base-unit (BTU) fuels, rejection happening at
type-check time. In the code both impl blocks carry only the `F: Fuel` bound,
so both calls are defined — and succeed at runtime — for `Diesel`, which is
not renewable and whose output unit is `Joule`, not `BTU` (the repository's
own `british_should_work` test even exercises `BritishEngine::<Diesel>`). -/
theorem green_british_engines_accept_any_fuel :
    (¬ IsRenewable Diesel ∧ GreenEngine.provide_energy Diesel ⟨10⟩ = 1055000) ∧
    (Diesel.unit ≠ EUnit.btu ∧ BritishEngine.provide_energy Diesel ⟨10⟩ = 1055000) := by
  decide

/-- C3: `InternalCombustion::<3>::new(120)` stores efficiency clamped to 100,
and four successive `provide_energy` calls on Diesel containers of quantity 10
return 1000, 1000, 1000, 990 base units: the step-down takes effect on the
call at which the counter reaches `DECAY`, using the already-decremented
efficiency for that same call. -/
theorem ic_decay_sequence_matches_test :
    (InternalCombustion.new 3 120).efficiency = 100 ∧
    InternalCombustion.run_to_btu (InternalCombustion.new 3 120) Diesel
        [⟨10⟩, ⟨10⟩, ⟨10⟩, ⟨10⟩] = [1000, 1000, 1000, 990] := by decide

/-- C4: efficiency saturates at 100 everywhere it is configurable: the shared
default method `provide_energy_with_efficiency` (for any provider primitive),
`InternalCombustion::new`, and `OmniGenerator::<E>` all behave with `e > 100`
exactly as with 100. -/
theorem efficiency_clamp_at_100 :
    (∀ (primitive : FuelContainer → Nat) (F : FuelTy) (f : FuelContainer) (e : Nat),
        100 < e →
        provide_energy_with_efficiency primitive F f e =
          provide_energy_with_efficiency primitive F f 100) ∧
    (∀ decay e, 100 < e →
        InternalCombustion.new decay e = InternalCombustion.new decay 100) ∧
    (∀ (E : Nat) (F : FuelTy) (f : FuelContainer), 100 < E →
        OmniGenerator.provide_energy E F f = OmniGenerator.provide_energy 100 F f) := by
  refine ⟨?_, ?_, ?_⟩
  · intro primitive F f e h
    simp only [provide_energy_with_efficiency, gt_iff_lt]
    rw [if_pos h, if_neg (lt_irrefl 100)]
  · intro decay e h
    simp only [InternalCombustion.new, Nat.min_eq_right (Nat.le_of_lt h), Nat.min_self]
  · intro E F f h
    simp only [OmniGenerator.provide_energy, gt_iff_lt]
    rw [if_pos h, if_neg (lt_irrefl 100)]

theorem efficiency_clamp_at_100_witness :
    provide_energy_with_efficiency (fun f => f.amount * 100) Diesel ⟨10⟩ 120 =
      provide_energy_with_efficiency (fun f => f.amount * 100) Diesel ⟨10⟩ 100 ∧
    InternalCombustion.new 3 120 = InternalCombustion.new 3 100 ∧
    OmniGenerator.provide_energy 120 Diesel ⟨10⟩ =
      OmniGenerator.provide_energy 100 Diesel ⟨10⟩ :=
  ⟨efficiency_clamp_at_100.1 (fun f => f.amount * 100) Diesel ⟨10⟩ 120 (by decide),
   efficiency_clamp_at_100.2.1 3 120 (by decide),
   efficiency_clamp_at_100.2.2 120 Diesel ⟨10⟩ (by decide)⟩

/-- C5: `NuclearReactor` is stateless (the embedding is a pure function of
fuel type and container, mirroring the field-less struct, so repeated calls
trivially return the same value with no state change) and deterministic: on
`Uranium` quantity 10 it returns 9900 base units, and in general — within the
u32 overflow-free range the spec scopes to — it returns
`quantity * density-in-base * 99 / 100`, floor-divided, expressed back in the
fuel's native unit. -/
theorem nuclear_reactor_formula :
    toBTU Uranium.unit (NuclearReactor.provide_energy Uranium ⟨10⟩) = 9900 ∧
    (∀ (F : FuelTy) (f : FuelContainer),
        f.amount * toBTU F.unit F.density < U32MOD →
        f.amount * toBTU F.unit F.density * 99 < U32MOD →
        NuclearReactor.provide_energy F f =
          fromBTU F.unit (f.amount * toBTU F.unit F.density * 99 / 100)) := by
  refine ⟨by decide, ?_⟩
  intro F f h1 h2
  simp only [NuclearReactor.provide_energy, Nat.mod_eq_of_lt h1, Nat.mod_eq_of_lt h2]

theorem nuclear_reactor_formula_witness :
    NuclearReactor.provide_energy Uranium ⟨10⟩ =
      fromBTU Uranium.unit (10 * toBTU Uranium.unit Uranium.density * 99 / 100) :=
  nuclear_reactor_formula.2 Uranium ⟨10⟩ (by decide) (by decide)

/-- C6: within the u32 overflow-free range, `CustomMixed<C, F1, F2>` with
`C ≤ 100` has density `d1*C/100 + d2*(100-C)/100` (densities in base units,
each term floor-divided separately before summing, exactly the spec's
formula), and `CustomMixed<50, Diesel, LithiumBattery>` has the same density
as `Mixed<Diesel, LithiumBattery>`. -/
theorem custom_mixed_weighted_density :
    (∀ (C : Nat) (F1 F2 : FuelTy), C ≤ 100 →
        toBTU F1.unit F1.density * C < U32MOD →
        toBTU F2.unit F2.density * (100 - C) < U32MOD →
        (CustomMixed C F1 F2).density = specWeightedDensity C F1 F2) ∧
    (CustomMixed 50 Diesel LithiumBattery).density =
      (Mixed Diesel LithiumBattery).density := by
  refine ⟨?_, by decide⟩
  intro C F1 F2 hC h1 h2
  have d1 : toBTU F1.unit F1.density * C / 100 ≤ U32MOD / 100 :=
    Nat.div_le_div_right h1.le
  have d2 : toBTU F2.unit F2.density * (100 - C) / 100 ≤ U32MOD / 100 :=
    Nat.div_le_div_right h2.le
  have hsum : toBTU F1.unit F1.density * C / 100 +
      toBTU F2.unit F2.density * (100 - C) / 100 < U32MOD :=
    lt_of_le_of_lt (Nat.add_le_add d1 d2) (by norm_num [U32MOD])
  show (toBTU F1.unit F1.density * C % U32MOD / 100 +
      toBTU F2.unit F2.density * (100 - C) % U32MOD / 100) % U32MOD = _
  rw [Nat.mod_eq_of_lt h1, Nat.mod_eq_of_lt h2, Nat.mod_eq_of_lt hsum]
  rfl

theorem custom_mixed_weighted_density_witness :
    (CustomMixed 30 Diesel LithiumBattery).density =
      specWeightedDensity 30 Diesel LithiumBattery :=
  custom_mixed_weighted_density.1 30 Diesel LithiumBattery
    (by decide) (by decide) (by decide)

/-- C7: for every pair of fuels, `Mixed<F1, F2>` has the base unit as its
output unit, and — within the u32 overflow-free range — its density is the
floor-divided average of the two densities converted to base units; in
particular `Mixed<Diesel, LithiumBattery>` has density 150 base units. -/
theorem mixed_density_average :
    (∀ F1 F2 : FuelTy,
        (Mixed F1 F2).unit = EUnit.btu ∧
        (toBTU F1.unit F1.density + toBTU F2.unit F2.density < U32MOD →
          (Mixed F1 F2).density =
            (toBTU F1.unit F1.density + toBTU F2.unit F2.density) / 2)) ∧
    (Mixed Diesel LithiumBattery).density = 150 := by
  refine ⟨?_, by decide⟩
  intro F1 F2
  refine ⟨rfl, fun h => ?_⟩
  show (toBTU F1.unit F1.density + toBTU F2.unit F2.density) % U32MOD / 2 = _
  rw [Nat.mod_eq_of_lt h]

theorem mixed_density_average_witness :
    (Mixed Diesel LithiumBattery).unit = EUnit.btu ∧
    (Mixed Diesel LithiumBattery).density =
      (toBTU Diesel.unit Diesel.density +
        toBTU LithiumBattery.unit LithiumBattery.density) / 2 :=
  ⟨(mixed_density_average.1 Diesel LithiumBattery).1,
   (mixed_density_average.1 Diesel LithiumBattery).2 (by decide)⟩

/-- C8: `OmniGenerator::<100>` on quantity-10 containers returns energy whose
base-unit value is 10000 for Uranium, 1000 for Diesel and 2000 for
LithiumBattery — quantity times the fuel's base-unit density with no loss. -/
theorem omni_generator_full_efficiency_values :
    toBTU Uranium.unit (OmniGenerator.provide_energy 100 Uranium ⟨10⟩) = 10000 ∧
    toBTU Diesel.unit (OmniGenerator.provide_energy 100 Diesel ⟨10⟩) = 1000 ∧
    toBTU LithiumBattery.unit
      (OmniGenerator.provide_energy 100 LithiumBattery ⟨10⟩) = 2000 := by
  decide

/-- C9: native → base → native round trips are lossy but bounded: for every
u32 magnitude `q`, the Joule round trip returns `r ≤ q` with `q - r < 1055`,
and the Calorie round trip returns `r ≤ q` with `q - r < 251`. -/
theorem unit_roundtrip_lossy_bounded (q : Nat) (hq : q < U32MOD) :
    jouleFromBtu (btuFromJoule q) ≤ q ∧ q - jouleFromBtu (btuFromJoule q) < 1055 ∧
    calorieFromBtu (btuFromCalorie q) ≤ q ∧
    q - calorieFromBtu (btuFromCalorie q) < 251 := by
  have hj : jouleFromBtu (btuFromJoule q) = q / 1055 * 1055 := by
    have hle : q / 1055 * 1055 ≤ q := Nat.div_mul_le_self q 1055
    simp only [jouleFromBtu, btuFromJoule, Nat.mod_eq_of_lt (lt_of_le_of_lt hle hq)]
  have hc : calorieFromBtu (btuFromCalorie q) = q / 251 * 251 := by
    have hle : q / 251 * 251 ≤ q := Nat.div_mul_le_self q 251
    simp only [calorieFromBtu, btuFromCalorie, Nat.mod_eq_of_lt (lt_of_le_of_lt hle hq)]
  rw [hj, hc]
  omega

theorem unit_roundtrip_lossy_bounded_witness :
    jouleFromBtu (btuFromJoule 123456) ≤ 123456 ∧
    123456 - jouleFromBtu (btuFromJoule 123456) < 1055 ∧
    calorieFromBtu (btuFromCalorie 123456) ≤ 123456 ∧
    123456 - calorieFromBtu (btuFromCalorie 123456) < 251 :=
  unit_roundtrip_lossy_bounded 123456 (by decide)

/-- C10: the shared default `provide_energy_ideal` routes the primitive's
native-unit result through the base unit with floor division before
converting back, so for every provider primitive its native-unit result is at
most the primitive's, with equality exactly when the primitive's result is a
multiple of the fuel unit's conversion factor — hence `provide_energy_ideal`
is not in general identical to the underlying primitive. -/
theorem ideal_le_primitive_iff_divisible (F : FuelTy)
    (primitive : FuelContainer → Nat) (f : FuelContainer)
    (h : primitive f < U32MOD) :
    provide_energy_ideal primitive F f ≤ primitive f ∧
    (provide_energy_ideal primitive F f = primitive f ↔
      convFactor F.unit ∣ primitive f) := by
  have hid : provide_energy_ideal primitive F f =
      fromBTU F.unit (toBTU F.unit (primitive f)) := by
    simp only [provide_energy_ideal, provide_energy_with_efficiency, gt_iff_lt]
    rw [if_neg (lt_irrefl 100)]
    congr 1
    omega
  rw [hid]
  obtain ⟨u, d⟩ := F
  cases u with
  | joule =>
      have hle : primitive f / 1055 * 1055 ≤ primitive f := Nat.div_mul_le_self _ _
      have hmod : primitive f / 1055 * 1055 % U32MOD = primitive f / 1055 * 1055 :=
        Nat.mod_eq_of_lt (lt_of_le_of_lt hle h)
      simp only [toBTU, fromBTU, btuFromJoule, jouleFromBtu, convFactor, hmod]
      omega
  | calorie =>
      have hle : primitive f / 251 * 251 ≤ primitive f := Nat.div_mul_le_self _ _
      have hmod : primitive f / 251 * 251 % U32MOD = primitive f / 251 * 251 :=
        Nat.mod_eq_of_lt (lt_of_le_of_lt hle h)
      simp only [toBTU, fromBTU, btuFromCalorie, calorieFromBtu, convFactor, hmod]
      omega
  | btu =>
      show primitive f ≤ primitive f ∧ (primitive f = primitive f ↔ 1 ∣ primitive f)
      exact ⟨le_refl _, by simp⟩

theorem ideal_le_primitive_iff_divisible_witness :
    provide_energy_ideal (fun _ => 2110) Diesel ⟨10⟩ ≤ 2110 ∧
    (provide_energy_ideal (fun _ => 2110) Diesel ⟨10⟩ = 2110 ↔
      convFactor Diesel.unit ∣ 2110) :=
  ideal_le_primitive_iff_divisible Diesel (fun _ => 2110) ⟨10⟩ (by decide)

end Energy
